import Mathlib

/-! # Fluid-Simulator: particle spawning and the diagnostics read-out

A shallow embedding of `src/globalVariables.h` (the `Particle` record and the
process-wide variables) and of `src/ui_functions.cpp` (`modUiData`,
`newParticle`), followed by the properties of those two functions.

Conventions of the embedding

* `float` and `double` values are modelled by rationals.  The two functions
  only copy numbers (a `float` widened to `double` keeps its value), they do no
  arithmetic, so nothing depends on rounding.
* The process-wide variables form one record, `Globals`; a function that
  writes globals maps a `Globals` to a `Globals`.
* `props[index]` with an index outside the table is a fault; a function that
  can fault returns an `Option`, and `none` is the fault.
* `globalVariables.h` declares `Particle` with eight members and a constructor
  of five parameters; `newParticle` calls a constructor of eleven.  The
  declaration that call resolves to is not under `src/`, no more than the table
  `props` is.  `Particle` and `Particle.ctor` embed what the header declares;
  `SpeciesParticle` and `SpeciesParticle.ctor` model the missing declaration
  from the spec's data model.
-/

namespace FluidSimulator

/-- Numeric values (`float`, `double`) of the program. -/
abbrev Scalar := ℚ

/-- Eigen `Vector2d`: two coefficients. -/
structure Vector2d where
  c0 : Scalar
  c1 : Scalar
deriving DecidableEq

/-- Coefficient access `v(i)` for `i` in `{0, 1}`. -/
def Vector2d.coeff (v : Vector2d) (i : Fin 2) : Scalar :=
  if i = 0 then v.c0 else v.c1

/-- Record `Particle` of `globalVariables.h`, lines 18-25: position `x`,
velocity `v`, force `f`, density `rho`, pressure `p` and the three colour
channels.  These eight are all the members the record declares. -/
structure Particle where
  x : Vector2d
  v : Vector2d
  f : Vector2d
  rho : Scalar
  p : Scalar
  red : Scalar
  green : Scalar
  blue : Scalar
deriving DecidableEq

/-- The constructor `Particle(_x, _y, _r, _g, _b)` of `globalVariables.h`,
lines 20-21, with its member initialiser list
`x(_x, _y), v(0.f, 0.f), f(0.f, 0.f), rho(0), p(0.f), red(_r), green(_g), blue(_b)`. -/
def Particle.ctor (_x _y _r _g _b : Scalar) : Particle :=
  { x := ⟨_x, _y⟩, v := ⟨0, 0⟩, f := ⟨0, 0⟩, rho := 0, p := 0,
    red := _r, green := _g, blue := _b }

/-- Modelled from the spec: the `Particle` declaration with the constructor of
eleven parameters that `newParticle` calls is not under `src/`.  The spec's
Particle has, next to position, velocity, force, density, pressure and colour
(the members of the declared record), the members `mass`, `restDensity`,
`gasConstant`, `smoothingRadius`, `viscosity`, `timestep`: "per-particle
physical constants, copied from the species preset at spawn time". -/
structure SpeciesParticle extends Particle where
  restDensity : Scalar
  gasConstant : Scalar
  smoothingRadius : Scalar
  mass : Scalar
  viscosity : Scalar
  timestep : Scalar
deriving DecidableEq

/-- Modelled from the spec: the constructor of eleven parameters, missing from
`src/`.  Its first five parameters are those of the declared constructor and
initialise the declared members as that constructor does; the other six are,
in the order of the spec's SpeciesPreset bundle (rest density, gas constant,
smoothing radius, mass, viscosity, time step), the physical constants, each
copied into the member of that name. -/
def SpeciesParticle.ctor (_x _y _r _g _b _restDens _gasConst _h _mass _visc _dt : Scalar) :
    SpeciesParticle :=
  { toParticle := Particle.ctor _x _y _r _g _b
    restDensity := _restDens
    gasConstant := _gasConst
    smoothingRadius := _h
    mass := _mass
    viscosity := _visc
    timestep := _dt }

/-- Modelled from the spec: the element type of the preset table `props` is not
declared under `src/`.  It is the spec's SpeciesPreset, a bundle of colour,
rest density, gas constant, smoothing radius, mass, viscosity and time step;
the member names are the ones `newParticle` reads. -/
structure SpeciesPreset where
  red : Scalar
  green : Scalar
  blue : Scalar
  REST_DENS : Scalar
  GAS_CONST : Scalar
  H : Scalar
  MASS : Scalar
  VISC : Scalar
  DT : Scalar
deriving DecidableEq

/-- Modelled from the spec: the class `Ui::MainWindow` is only forward-declared
under `src/`.  Of its widgets the ten that `modUiData` writes are kept, each
by the text it shows. -/
structure UiMainWindow where
  velocity_0 : String
  velocity_1 : String
  total_force_0 : String
  total_force_1 : String
  gravity_0 : String
  gravity_1 : String
  press_0 : String
  press_1 : String
  viscocity_0 : String
  viscocity_1 : String
deriving DecidableEq

/-- The process-wide variables declared `extern` in `globalVariables.h`,
lines 27-72, one member per variable and under the same names.  `globalUi` is
the window the pointer refers to; `particlePointer` is the store position of
the particle pointed at, if any; the elements of `particles` are the records
that `newParticle` constructs. -/
structure Globals where
  globalUi : UiMainWindow
  herramientaSeleccionada : Int
  particleSelected : Bool
  pmz : Vector2d
  particlePointer : Option Nat
  particles : List SpeciesParticle
  REST_DENS : Scalar
  GAS_CONST : Scalar
  H : Scalar
  HSQ : Scalar
  MASS : Scalar
  VISC : Scalar
  DT : Scalar
  r : Scalar
  g : Scalar
  b : Scalar
  POLY6 : Scalar
  SPIKY_GRAD : Scalar
  VISC_LAP : Scalar
  EPS : Scalar
  BOUND_DAMPING : Scalar
  MAX_PARTICLES : Int
  DAM_PARTICLES : Nat
  BLOCK_PARTICLES : Int
  WINDOW_WIDTH : Int
  WINDOW_HEIGHT : Int
  VIEW_WIDTH : Scalar
  VIEW_HEIGHT : Scalar
  G : Vector2d
  particlePVelocity : Vector2d
  particlePForce : Vector2d
  particlePFgrav : Vector2d
  particlePFvisc : Vector2d
  particlePFpress : Vector2d
deriving DecidableEq

/-- Function `modUiData` of `ui_functions.cpp`, lines 4-19: ten `setText` calls
in source order.  `number` stands for Qt's `QString::number(double, char, int)`;
every call passes format `'f'` and precision `2`. -/
def modUiData (number : Scalar → Char → Nat → String) (st : Globals) : Globals :=
  let ui := st.globalUi
  let ui := { ui with velocity_0 := number (st.particlePVelocity.coeff 0) 'f' 2 }
  let ui := { ui with velocity_1 := number (st.particlePVelocity.coeff 1) 'f' 2 }
  let ui := { ui with total_force_0 := number (st.particlePForce.coeff 0) 'f' 2 }
  let ui := { ui with total_force_1 := number (st.particlePForce.coeff 1) 'f' 2 }
  let ui := { ui with gravity_0 := number (st.particlePFgrav.coeff 0) 'f' 2 }
  let ui := { ui with gravity_1 := number (st.particlePFgrav.coeff 1) 'f' 2 }
  let ui := { ui with press_0 := number (st.particlePFpress.coeff 0) 'f' 2 }
  let ui := { ui with press_1 := number (st.particlePFpress.coeff 1) 'f' 2 }
  let ui := { ui with viscocity_0 := number (st.particlePFvisc.coeff 0) 'f' 2 }
  let ui := { ui with viscocity_1 := number (st.particlePFvisc.coeff 1) 'f' 2 }
  { st with globalUi := ui }

/-- The subscript `props[index]` on the preset table with an `int` index: the
element at that position when `0 ≤ index < size`, a fault otherwise. -/
def propsAt (props : List SpeciesPreset) (index : Int) : Option SpeciesPreset :=
  if index < 0 then none else props[index.toNat]?

/-- Function `newParticle` of `ui_functions.cpp`, lines 21-24.  The table
`props` is not declared under `src/` and is a parameter.  The body subscripts
`props[index]` nine times, once per argument taken from the preset, passes the
eleven arguments in source order to the constructor and appends the particle
to `particles`; it has no other statement. -/
def newParticle (props : List SpeciesPreset) (st : Globals) (_x _y : Scalar) (index : Int) :
    Option Globals := do
  let e1 ← propsAt props index
  let e2 ← propsAt props index
  let e3 ← propsAt props index
  let e4 ← propsAt props index
  let e5 ← propsAt props index
  let e6 ← propsAt props index
  let e7 ← propsAt props index
  let e8 ← propsAt props index
  let e9 ← propsAt props index
  pure { st with
    particles := st.particles ++
      [SpeciesParticle.ctor _x _y e1.red e2.green e3.blue
        e4.REST_DENS e5.GAS_CONST e6.H e7.MASS e8.VISC e9.DT] }

/-- A spawn request: the arguments `(_x, _y, index)` of one `newParticle` call. -/
structure SpawnRequest where
  x : Scalar
  y : Scalar
  index : Int
deriving DecidableEq

/-- Runs `newParticle` on a list of requests, first request first; a fault in
any call is a fault of the run. -/
def spawnAll (props : List SpeciesPreset) (st : Globals) : List SpawnRequest → Option Globals
  | [] => some st
  | q :: rest => (newParticle props st q.x q.y q.index).bind (fun st1 => spawnAll props st1 rest)

/-! ## Sample data for the concrete instances -/

/-- A two-entry preset table (a water-like and an oil-like species). -/
def sampleProps : List SpeciesPreset :=
  [ { red := 0, green := 0, blue := 1,
      REST_DENS := 300, GAS_CONST := 2000, H := 16, MASS := 5/2, VISC := 200, DT := 7/10000 },
    { red := 1, green := 1/2, blue := 0,
      REST_DENS := 250, GAS_CONST := 1500, H := 12, MASS := 2, VISC := 400, DT := 1/1000 } ]

/-- A state with an empty store, blank read-outs and `MAX_PARTICLES = 2`. -/
def sampleState : Globals :=
  { globalUi := ⟨"", "", "", "", "", "", "", "", "", ""⟩
    herramientaSeleccionada := 0
    particleSelected := false
    pmz := ⟨0, 0⟩
    particlePointer := none
    particles := []
    REST_DENS := 300
    GAS_CONST := 2000
    H := 16
    HSQ := 256
    MASS := 5/2
    VISC := 200
    DT := 7/10000
    r := 1/5
    g := 3/5
    b := 1
    POLY6 := 0
    SPIKY_GRAD := 0
    VISC_LAP := 0
    EPS := 16
    BOUND_DAMPING := -1/2
    MAX_PARTICLES := 2
    DAM_PARTICLES := 0
    BLOCK_PARTICLES := 1
    WINDOW_WIDTH := 800
    WINDOW_HEIGHT := 600
    VIEW_WIDTH := 1200
    VIEW_HEIGHT := 900
    G := ⟨0, -10⟩
    particlePVelocity := ⟨1, 2⟩
    particlePForce := ⟨3, 4⟩
    particlePFgrav := ⟨5, 6⟩
    particlePFvisc := ⟨7, 8⟩
    particlePFpress := ⟨9, 10⟩ }

/-- The state `sampleState` after two spawns: its store holds exactly
`MAX_PARTICLES = 2` particles. -/
def fullState : Globals :=
  { sampleState with
    particles :=
      [SpeciesParticle.ctor 10 20 0 0 1 300 2000 16 (5/2) 200 (7/10000),
       SpeciesParticle.ctor 30 40 1 (1/2) 0 250 1500 12 2 400 (1/1000)] }

theorem propsAt_eq_getElem? (props : List SpeciesPreset) (index : Int) (h0 : 0 ≤ index) :
    propsAt props index = props[index.toNat]? := by
  unfold propsAt
  rw [if_neg (not_lt.mpr h0)]

theorem propsAt_neg (props : List SpeciesPreset) (index : Int) (h : index < 0) :
    propsAt props index = none := by
  unfold propsAt
  rw [if_pos h]

theorem propsAt_isSome_iff (props : List SpeciesPreset) (index : Int) :
    (propsAt props index).isSome = true ↔ 0 ≤ index ∧ index < (props.length : Int) := by
  by_cases h : index < 0
  · rw [propsAt_neg props index h]
    constructor
    · intro hc
      cases hc
    · rintro ⟨h0, -⟩
      omega
  · have h0 : 0 ≤ index := not_lt.mp h
    rw [propsAt_eq_getElem? props index h0]
    constructor
    · intro hs
      obtain ⟨pr, hpr⟩ := Option.isSome_iff_exists.mp hs
      obtain ⟨hlen, -⟩ := List.getElem?_eq_some.mp hpr
      exact ⟨h0, by omega⟩
    · rintro ⟨-, hlt⟩
      have hlen : index.toNat < props.length := by omega
      rw [List.getElem?_eq_getElem hlen]
      rfl

theorem propsAt_of_valid (props : List SpeciesPreset) (index : Int)
    (h0 : 0 ≤ index) (hlt : index < (props.length : Int)) :
    ∃ pr, propsAt props index = some pr ∧ props[index.toNat]? = some pr := by
  have hs := (propsAt_isSome_iff props index).mpr ⟨h0, hlt⟩
  obtain ⟨pr, hpr⟩ := Option.isSome_iff_exists.mp hs
  exact ⟨pr, hpr, by rw [← propsAt_eq_getElem? props index h0]; exact hpr⟩

/-- With `props[index] = pr` the call appends the particle that the constructor
builds from the position, the preset colour and the six preset constants. -/
theorem newParticle_of_some (props : List SpeciesPreset) (st : Globals) (x y : Scalar)
    (index : Int) (pr : SpeciesPreset) (h : propsAt props index = some pr) :
    newParticle props st x y index =
      some { st with
        particles := st.particles ++
          [SpeciesParticle.ctor x y pr.red pr.green pr.blue
            pr.REST_DENS pr.GAS_CONST pr.H pr.MASS pr.VISC pr.DT] } := by
  simp [newParticle, h]

theorem newParticle_of_none (props : List SpeciesPreset) (st : Globals) (x y : Scalar)
    (index : Int) (h : propsAt props index = none) :
    newParticle props st x y index = none := by
  simp [newParticle, h]

/-- A run of `spawnAll` over requests with indices inside the preset table
returns a state, and its store is the old store followed by one particle per
request, in request order: the particle the constructor builds from the request
position and the colour and constants of the preset the request names. -/
theorem spawnAll_appends (props : List SpeciesPreset) :
    ∀ (reqs : List SpawnRequest) (st : Globals),
      (∀ q ∈ reqs, 0 ≤ q.index ∧ q.index < (props.length : Int)) →
      ∃ st1 ps, spawnAll props st reqs = some st1 ∧
        st1.particles = st.particles ++ ps ∧
        List.Forall₂ (fun q pt => ∃ pr, props[q.index.toNat]? = some pr ∧
          pt = SpeciesParticle.ctor q.x q.y pr.red pr.green pr.blue
            pr.REST_DENS pr.GAS_CONST pr.H pr.MASS pr.VISC pr.DT) reqs ps := by
  intro reqs
  induction reqs with
  | nil =>
    intro st _
    exact ⟨st, [], rfl, by simp, List.Forall₂.nil⟩
  | cons q rest ih =>
    intro st hvalid
    obtain ⟨h0, hlt⟩ := hvalid q (List.mem_cons_self q rest)
    obtain ⟨pr, hpr, hget⟩ := propsAt_of_valid props q.index h0 hlt
    obtain ⟨st2, ps, hrun, hstore, hrel⟩ :=
      ih { st with
          particles := st.particles ++
            [SpeciesParticle.ctor q.x q.y pr.red pr.green pr.blue
              pr.REST_DENS pr.GAS_CONST pr.H pr.MASS pr.VISC pr.DT] }
        (fun q1 hq1 => hvalid q1 (List.mem_cons_of_mem q hq1))
    refine ⟨st2, SpeciesParticle.ctor q.x q.y pr.red pr.green pr.blue
        pr.REST_DENS pr.GAS_CONST pr.H pr.MASS pr.VISC pr.DT :: ps, ?_, ?_,
      List.Forall₂.cons ⟨pr, hget, rfl⟩ hrel⟩
    · simp only [spawnAll, newParticle_of_some props st q.x q.y q.index pr hpr, Option.some_bind]
      exact hrun
    · rw [hstore]
      simp

/-! ## Spawning: `newParticle` -/

/-- C1: for every state, every position `(x, y)` and every index inside the
preset table, `newParticle` returns a state whose store is the old store with
exactly one particle appended: its length is the old length plus one and its
last element has position `(x, y)` and the colour of `props[i]`. -/
theorem newParticle_appends_one (props : List SpeciesPreset) (st : Globals) (x y : Scalar)
    (i : Int) (h0 : 0 ≤ i) (hlt : i < (props.length : Int)) :
    ∃ st1 pr pt, newParticle props st x y i = some st1 ∧
      props[i.toNat]? = some pr ∧
      st1.particles = st.particles ++ [pt] ∧
      st1.particles.length = st.particles.length + 1 ∧
      st1.particles.getLast? = some pt ∧
      pt.x = ⟨x, y⟩ ∧ pt.red = pr.red ∧ pt.green = pr.green ∧ pt.blue = pr.blue := by
  obtain ⟨pr, hpr, hget⟩ := propsAt_of_valid props i h0 hlt
  refine ⟨_, pr, SpeciesParticle.ctor x y pr.red pr.green pr.blue
      pr.REST_DENS pr.GAS_CONST pr.H pr.MASS pr.VISC pr.DT,
    newParticle_of_some props st x y i pr hpr, hget, rfl, ?_, ?_, rfl, rfl, rfl, rfl⟩
  · simp
  · simp

/-- Instance of C1: spawning species 1 at `(3, 4)` into the empty store. -/
theorem newParticle_appends_one_witness :
    ∃ st1 pr pt, newParticle sampleProps sampleState 3 4 1 = some st1 ∧
      sampleProps[(1 : Int).toNat]? = some pr ∧
      st1.particles = sampleState.particles ++ [pt] ∧
      st1.particles.length = sampleState.particles.length + 1 ∧
      st1.particles.getLast? = some pt ∧
      pt.x = ⟨3, 4⟩ ∧ pt.red = pr.red ∧ pt.green = pr.green ∧ pt.blue = pr.blue :=
  newParticle_appends_one sampleProps sampleState 3 4 1 (by decide) (by decide)

/-- C2, as stated, fails: `fullState` holds `MAX_PARTICLES = 2` particles, and
`newParticle` on it returns a state with three particles, a store different
from the one it started with. -/
theorem newParticle_at_capacity_counterexample :
    (fullState.particles.length : Int) = fullState.MAX_PARTICLES ∧
    ∃ st1, newParticle sampleProps fullState 3 4 1 = some st1 ∧
      st1.particles.length = 3 ∧ st1.particles ≠ fullState.particles := by
  refine ⟨by decide, _, newParticle_of_some sampleProps fullState 3 4 1 _ rfl, by decide, ?_⟩
  intro h
  have hlen := congrArg List.length h
  simp at hlen

/-- C2, amended: `newParticle` has no capacity check.  On a store whose size
equals `MAX_PARTICLES`, with an index inside the preset table, it appends one
particle all the same: the new size is `MAX_PARTICLES + 1`, the old store is
an initial segment of the new one, and `MAX_PARTICLES` itself is unchanged. -/
theorem newParticle_at_capacity_appends (props : List SpeciesPreset) (st : Globals)
    (x y : Scalar) (i : Int) (hfull : (st.particles.length : Int) = st.MAX_PARTICLES)
    (h0 : 0 ≤ i) (hlt : i < (props.length : Int)) :
    ∃ st1 pt, newParticle props st x y i = some st1 ∧
      st1.particles = st.particles ++ [pt] ∧
      (st1.particles.length : Int) = st.MAX_PARTICLES + 1 ∧
      st1.MAX_PARTICLES = st.MAX_PARTICLES := by
  obtain ⟨pr, hpr, -⟩ := propsAt_of_valid props i h0 hlt
  refine ⟨_, SpeciesParticle.ctor x y pr.red pr.green pr.blue
      pr.REST_DENS pr.GAS_CONST pr.H pr.MASS pr.VISC pr.DT,
    newParticle_of_some props st x y i pr hpr, rfl, ?_, rfl⟩
  simp only [List.length_append, List.length_singleton, Nat.cast_add, Nat.cast_one]
  rw [hfull]

/-- Instance of amended C2 at the full sample store. -/
theorem newParticle_at_capacity_appends_witness :
    ∃ st1 pt, newParticle sampleProps fullState 3 4 1 = some st1 ∧
      st1.particles = fullState.particles ++ [pt] ∧
      (st1.particles.length : Int) = fullState.MAX_PARTICLES + 1 ∧
      st1.MAX_PARTICLES = fullState.MAX_PARTICLES :=
  newParticle_at_capacity_appends sampleProps fullState 3 4 1 (by decide) (by decide) (by decide)

/-- C6: spawning with an index inside the preset table leaves every particle
already in the store where it was and as it was: the old store is an initial
segment of the new store, and for every `k` below the old length the `k`-th
particle of the new store is the `k`-th particle of the old one, equal as a
whole record and so in position, velocity, force, density, pressure and
colour. -/
theorem newParticle_keeps_existing (props : List SpeciesPreset) (st : Globals) (x y : Scalar)
    (i : Int) (h0 : 0 ≤ i) (hlt : i < (props.length : Int)) :
    ∃ st1, newParticle props st x y i = some st1 ∧
      st.particles <+: st1.particles ∧
      ∀ k, k < st.particles.length → st1.particles[k]? = st.particles[k]? := by
  obtain ⟨pr, hpr, -⟩ := propsAt_of_valid props i h0 hlt
  refine ⟨_, newParticle_of_some props st x y i pr hpr, ⟨_, rfl⟩, ?_⟩
  intro k hk
  exact List.getElem?_append_left hk

/-- Instance of C6 at the two-particle sample store. -/
theorem newParticle_keeps_existing_witness :
    ∃ st1, newParticle sampleProps fullState 3 4 0 = some st1 ∧
      fullState.particles <+: st1.particles ∧
      ∀ k, k < fullState.particles.length → st1.particles[k]? = fullState.particles[k]? :=
  newParticle_keeps_existing sampleProps fullState 3 4 0 (by decide) (by decide)

/-- C9: the constructor `Particle(x, y, r, g, b)` yields position `(x, y)`,
velocity `(0, 0)`, force `(0, 0)`, density `0`, pressure `0` and colour
`(r, g, b)`; and the particle that `newParticle` has just appended (index
inside the preset table) is at rest with density `0` and pressure `0`. -/
theorem fresh_particle_at_rest (x y r g b : Scalar) (props : List SpeciesPreset) (st : Globals)
    (i : Int) (h0 : 0 ≤ i) (hlt : i < (props.length : Int)) :
    ((Particle.ctor x y r g b).x = ⟨x, y⟩ ∧ (Particle.ctor x y r g b).v = ⟨0, 0⟩ ∧
      (Particle.ctor x y r g b).f = ⟨0, 0⟩ ∧ (Particle.ctor x y r g b).rho = 0 ∧
      (Particle.ctor x y r g b).p = 0 ∧ (Particle.ctor x y r g b).red = r ∧
      (Particle.ctor x y r g b).green = g ∧ (Particle.ctor x y r g b).blue = b) ∧
    ∃ st1 pt, newParticle props st x y i = some st1 ∧ st1.particles.getLast? = some pt ∧
      pt.x = ⟨x, y⟩ ∧ pt.v = ⟨0, 0⟩ ∧ pt.f = ⟨0, 0⟩ ∧ pt.rho = 0 ∧ pt.p = 0 := by
  refine ⟨⟨rfl, rfl, rfl, rfl, rfl, rfl, rfl, rfl⟩, ?_⟩
  obtain ⟨pr, hpr, -⟩ := propsAt_of_valid props i h0 hlt
  refine ⟨_, SpeciesParticle.ctor x y pr.red pr.green pr.blue
      pr.REST_DENS pr.GAS_CONST pr.H pr.MASS pr.VISC pr.DT,
    newParticle_of_some props st x y i pr hpr, ?_, rfl, rfl, rfl, rfl, rfl⟩
  simp

/-- Instance of C9: the constructor at `(3, 4)` with colour `(1/5, 3/5, 1)` and
a spawn of species 0 into the two-particle sample store. -/
theorem fresh_particle_at_rest_witness :
    ((Particle.ctor 3 4 (1/5) (3/5) 1).x = ⟨3, 4⟩ ∧ (Particle.ctor 3 4 (1/5) (3/5) 1).v = ⟨0, 0⟩ ∧
      (Particle.ctor 3 4 (1/5) (3/5) 1).f = ⟨0, 0⟩ ∧ (Particle.ctor 3 4 (1/5) (3/5) 1).rho = 0 ∧
      (Particle.ctor 3 4 (1/5) (3/5) 1).p = 0 ∧ (Particle.ctor 3 4 (1/5) (3/5) 1).red = 1/5 ∧
      (Particle.ctor 3 4 (1/5) (3/5) 1).green = 3/5 ∧ (Particle.ctor 3 4 (1/5) (3/5) 1).blue = 1) ∧
    ∃ st1 pt, newParticle sampleProps fullState 3 4 0 = some st1 ∧
      st1.particles.getLast? = some pt ∧
      pt.x = ⟨3, 4⟩ ∧ pt.v = ⟨0, 0⟩ ∧ pt.f = ⟨0, 0⟩ ∧ pt.rho = 0 ∧ pt.p = 0 :=
  fresh_particle_at_rest 3 4 (1/5) (3/5) 1 sampleProps fullState 0 (by decide) (by decide)

/-- C10: `newParticle` checks nothing about the index.  It returns a state
exactly when `0 ≤ index < size of props`, so inside that range every lookup
succeeds and the fault is unreachable; exactly outside that range, and so for
every negative index, the lookup `props[index]` is out of bounds and the call,
having no guard, faults with it. -/
theorem newParticle_succeeds_iff_index_valid (props : List SpeciesPreset) (st : Globals)
    (x y : Scalar) (index : Int) :
    ((∃ st1, newParticle props st x y index = some st1) ↔
        (0 ≤ index ∧ index < (props.length : Int))) ∧
    (propsAt props index = none ↔ (index < 0 ∨ (props.length : Int) ≤ index)) ∧
    (newParticle props st x y index = none ↔ (index < 0 ∨ (props.length : Int) ≤ index)) := by
  have hnone : (index < 0 ∨ (props.length : Int) ≤ index) → propsAt props index = none := by
    intro hbad
    have hns : ¬ ((propsAt props index).isSome = true) := by
      rw [propsAt_isSome_iff]
      omega
    cases hp : propsAt props index with
    | none => rfl
    | some pr => rw [hp] at hns; exact absurd rfl hns
  have hsome : (0 ≤ index ∧ index < (props.length : Int)) →
      ∃ st1 pr, propsAt props index = some pr ∧ newParticle props st x y index = some st1 := by
    rintro ⟨h0, hlt⟩
    obtain ⟨pr, hpr, -⟩ := propsAt_of_valid props index h0 hlt
    exact ⟨_, pr, hpr, newParticle_of_some props st x y index pr hpr⟩
  refine ⟨⟨?_, ?_⟩, ⟨?_, hnone⟩, ⟨?_, ?_⟩⟩
  · rintro ⟨st1, hst1⟩
    by_contra hbad
    rw [newParticle_of_none props st x y index (hnone (by omega))] at hst1
    cases hst1
  · intro hvalid
    obtain ⟨st1, -, -, hst1⟩ := hsome hvalid
    exact ⟨st1, hst1⟩
  · intro hres
    by_contra hbad
    obtain ⟨-, pr, hpr, -⟩ := hsome (by omega)
    rw [hres] at hpr
    cases hpr
  · intro hres
    by_contra hbad
    obtain ⟨st1, -, -, hst1⟩ := hsome (by omega)
    rw [hres] at hst1
    cases hst1
  · intro hbad
    exact newParticle_of_none props st x y index (hnone hbad)

/-- C5: store order is insertion order.  For every list of spawn requests whose
indices are all inside the preset table, running `newParticle` on them in list
order from a state with an empty store returns a state whose store has one
particle per request, and for every `k` below the number of requests the
`k`-th particle has the position of the `k`-th request and the colour of the
preset that request names. -/
theorem spawnAll_insertion_order (props : List SpeciesPreset) (st : Globals)
    (reqs : List SpawnRequest) (hempty : st.particles = [])
    (hvalid : ∀ q ∈ reqs, 0 ≤ q.index ∧ q.index < (props.length : Int)) :
    ∃ st1, spawnAll props st reqs = some st1 ∧
      st1.particles.length = reqs.length ∧
      ∀ (k : Nat) (hk : k < reqs.length), ∃ pt pr,
        st1.particles[k]? = some pt ∧
        props[(reqs[k]).index.toNat]? = some pr ∧
        pt.x = ⟨(reqs[k]).x, (reqs[k]).y⟩ ∧
        pt.red = pr.red ∧ pt.green = pr.green ∧ pt.blue = pr.blue := by
  obtain ⟨st1, ps, hrun, hstore, hrel⟩ := spawnAll_appends props reqs st hvalid
  rw [hempty, List.nil_append] at hstore
  have hlen : reqs.length = ps.length := hrel.length_eq
  refine ⟨st1, hrun, by rw [hstore, hlen], ?_⟩
  intro k hk
  have hk2 : k < ps.length := hlen ▸ hk
  obtain ⟨pr, hget, hpt⟩ := (List.forall₂_iff_get.mp hrel).2 k hk hk2
  refine ⟨ps.get ⟨k, hk2⟩, pr, ?_, hget, ?_, ?_, ?_, ?_⟩
  · rw [hstore]
    exact List.getElem?_eq_getElem hk2
  · rw [hpt]; rfl
  · rw [hpt]; rfl
  · rw [hpt]; rfl
  · rw [hpt]; rfl

/-- Instance of C5: three requests, species 1, 0, 1, from the empty store. -/
theorem spawnAll_insertion_order_witness :
    ∃ st1, spawnAll sampleProps sampleState [⟨1, 2, 1⟩, ⟨3, 4, 0⟩, ⟨5, 6, 1⟩] = some st1 ∧
      st1.particles.length = ([⟨1, 2, 1⟩, ⟨3, 4, 0⟩, ⟨5, 6, 1⟩] : List SpawnRequest).length ∧
      ∀ (k : Nat) (hk : k < ([⟨1, 2, 1⟩, ⟨3, 4, 0⟩, ⟨5, 6, 1⟩] : List SpawnRequest).length),
        ∃ pt pr, st1.particles[k]? = some pt ∧
        sampleProps[(([⟨1, 2, 1⟩, ⟨3, 4, 0⟩, ⟨5, 6, 1⟩] : List SpawnRequest)[k]).index.toNat]? =
          some pr ∧
        pt.x = ⟨(([⟨1, 2, 1⟩, ⟨3, 4, 0⟩, ⟨5, 6, 1⟩] : List SpawnRequest)[k]).x,
          (([⟨1, 2, 1⟩, ⟨3, 4, 0⟩, ⟨5, 6, 1⟩] : List SpawnRequest)[k]).y⟩ ∧
        pt.red = pr.red ∧ pt.green = pr.green ∧ pt.blue = pr.blue :=
  spawnAll_insertion_order sampleProps sampleState [⟨1, 2, 1⟩, ⟨3, 4, 0⟩, ⟨5, 6, 1⟩] rfl
    (by
      intro q hq
      simp only [List.mem_cons, List.mem_singleton, List.not_mem_nil, or_false] at hq
      rcases hq with h | h | h <;> subst h <;> decide)

/-- C7: `modUiData` is read-only on the simulation state.  For every state and
every formatting function, the particle store and the five diagnostic vectors
of the selected particle are the same after the call as before; so is every
other global variable, the state after the call being the state before with
nothing but the window's ten text fields replaced. -/
theorem modUiData_frame (number : Scalar → Char → Nat → String) (st : Globals) :
    (modUiData number st).particles = st.particles ∧
    (modUiData number st).particlePVelocity = st.particlePVelocity ∧
    (modUiData number st).particlePForce = st.particlePForce ∧
    (modUiData number st).particlePFgrav = st.particlePFgrav ∧
    (modUiData number st).particlePFvisc = st.particlePFvisc ∧
    (modUiData number st).particlePFpress = st.particlePFpress ∧
    { modUiData number st with globalUi := st.globalUi } = st :=
  ⟨rfl, rfl, rfl, rfl, rfl, rfl, rfl⟩

/-- C8: `modUiData` wires each component to its own field.  For every state
and every formatting function `number`, each of the ten fields holds
`number c 'f' 2` (fixed notation, two decimals) for exactly one component `c`:
`velocity_0/1` of `particlePVelocity`, `total_force_0/1` of `particlePForce`,
`gravity_0/1` of `particlePFgrav`, `press_0/1` of `particlePFpress` and
`viscocity_0/1` of `particlePFvisc`, component 0 and 1 in that order. -/
theorem modUiData_wiring (number : Scalar → Char → Nat → String) (st : Globals) :
    (modUiData number st).globalUi.velocity_0 = number st.particlePVelocity.c0 'f' 2 ∧
    (modUiData number st).globalUi.velocity_1 = number st.particlePVelocity.c1 'f' 2 ∧
    (modUiData number st).globalUi.total_force_0 = number st.particlePForce.c0 'f' 2 ∧
    (modUiData number st).globalUi.total_force_1 = number st.particlePForce.c1 'f' 2 ∧
    (modUiData number st).globalUi.gravity_0 = number st.particlePFgrav.c0 'f' 2 ∧
    (modUiData number st).globalUi.gravity_1 = number st.particlePFgrav.c1 'f' 2 ∧
    (modUiData number st).globalUi.press_0 = number st.particlePFpress.c0 'f' 2 ∧
    (modUiData number st).globalUi.press_1 = number st.particlePFpress.c1 'f' 2 ∧
    (modUiData number st).globalUi.viscocity_0 = number st.particlePFvisc.c0 'f' 2 ∧
    (modUiData number st).globalUi.viscocity_1 = number st.particlePFvisc.c1 'f' 2 :=
  ⟨rfl, rfl, rfl, rfl, rfl, rfl, rfl, rfl, rfl, rfl⟩

end FluidSimulator
